import Mathlib

/-!
Verification of `dcp` (`src/src/main.c`), an audited bulk file-copy tool.
The file shallowly embeds the option parsing, index construction, destination
preparation and metadata-header emission of `main.c` and proves properties of
them.  External effects (environment lookup, `stat`, user/group database,
manifest parsing) are passed in as explicit function parameters.
-/

namespace DCP

/-- Modelled from the spec: the digest bit constants come from `digest.h`,
which is not under `src/`; the spec describes the mask as a "bit set over
{MD5, SHA1, SHA256, SHA512}" with ordinal order MD5 < SHA1 < SHA256 < SHA512,
and `DGST_ALL` as the "all" mask. -/
def DGST_MD5 : Nat := 1

/-- Modelled from the spec: SHA1 bit of the digest mask. -/
def DGST_SHA1 : Nat := 2

/-- Modelled from the spec: SHA256 bit of the digest mask. -/
def DGST_SHA256 : Nat := 4

/-- Modelled from the spec: SHA512 bit of the digest mask. -/
def DGST_SHA512 : Nat := 8

/-- Modelled from the spec: mask selecting all four algorithms. -/
def DGST_ALL : Nat := DGST_MD5 ||| DGST_SHA1 ||| DGST_SHA256 ||| DGST_SHA512

/-- Embedding of `parse_digests` (`src/src/main.c:175-189`): the `--all` flag
short-circuits to `DGST_ALL`; otherwise the mask is the union of the set
per-algorithm flags, and if that union is empty the mask defaults to MD5. -/
def parse_digests (all md5 sha1 sha256 sha512 : Bool) : Nat :=
  if all then DGST_ALL
  else
    let d0 := 0
    let d1 := if md5 then d0 ||| DGST_MD5 else d0
    let d2 := if sha1 then d1 ||| DGST_SHA1 else d1
    let d3 := if sha256 then d2 ||| DGST_SHA256 else d2
    let d4 := if sha512 then d3 ||| DGST_SHA512 else d3
    if d4 = 0 then DGST_MD5 else d4

/-- Result of `parse_owner` / `parse_group` (`src/src/main.c:230-280`): the
numeric id applied to copies, whether a lookup-failure warning was emitted,
and the name recorded for the manifest header. -/
structure IdentResult where
  id : Nat
  warned : Bool
  name : Option String
  deriving DecidableEq, Repr

/-- Embedding of `parse_owner` (`src/src/main.c:230-254`).  `env` is the value
of `DCP_OWNER` (none when unset), `given`/`arg` the `--owner` flag, `getpwnam`
the system user database (none = lookup failure), `euid` the process's
effective uid. -/
def parse_owner (env : Option String) (given : Bool) (arg : String)
    (getpwnam : String → Option Nat) (euid : Nat) : IdentResult :=
  let user : Option String := if given then some arg else env
  match user with
  | none => ⟨euid, false, none⟩
  | some u =>
    match getpwnam u with
    | none => ⟨euid, true, some u⟩
    | some uid => ⟨uid, false, some u⟩

/-- Embedding of `parse_group` (`src/src/main.c:257-280`), symmetric to
`parse_owner` with `DCP_GROUP`, `--group`, `getgrnam` and the effective gid. -/
def parse_group (env : Option String) (given : Bool) (arg : String)
    (getgrnam : String → Option Nat) (egid : Nat) : IdentResult :=
  let groupname : Option String := if given then some arg else env
  match groupname with
  | none => ⟨egid, false, none⟩
  | some g =>
    match getgrnam g with
    | none => ⟨egid, true, some g⟩
    | some gid => ⟨gid, false, some g⟩

end DCP

namespace DCP

/-- Character class of C `isspace` in the POSIX locale, used by `strtol` to
skip leading whitespace. -/
def isCSpace (c : Char) : Bool :=
  c = ' ' || c = '\t' || c = '\n' || c = '\x0b' || c = '\x0c' || c = '\r'

/-- Numeric value of a digit character, over the union of decimal and hex
digits; `none` for a non-digit. -/
def digitVal (c : Char) : Option Nat :=
  if '0' ≤ c ∧ c ≤ '9' then some (c.toNat - '0'.toNat)
  else if 'a' ≤ c ∧ c ≤ 'f' then some (c.toNat - 'a'.toNat + 10)
  else if 'A' ≤ c ∧ c ≤ 'F' then some (c.toNat - 'A'.toNat + 10)
  else none

/-- Longest prefix of digits valid in the given base, with the unconsumed
remainder of the string. -/
def takeDigits (base : Nat) : List Char → List Nat × List Char
  | [] => ([], [])
  | c :: cs =>
    match digitVal c with
    | some v =>
      if v < base then
        let p := takeDigits base cs
        (v :: p.1, p.2)
      else ([], c :: cs)
    | none => ([], c :: cs)

/-- Value of a digit string read most-significant first. -/
def digitsToNat (base : Nat) (ds : List Nat) : Nat :=
  ds.foldl (fun acc d => acc * base + d) 0

/-- C `long` bounds on the 64-bit platform the program targets. -/
def LONG_MAX : Int := 2 ^ 63 - 1

/-- Smallest C `long` value. -/
def LONG_MIN : Int := -(2 ^ 63)

/-- Clamping performed by `strtol` on out-of-range input. -/
def clampLong (n : Int) : Int :=
  if n > LONG_MAX then LONG_MAX else if n < LONG_MIN then LONG_MIN else n

/-- Bool test for a character usable as a hexadecimal digit. -/
def isHexDigitC (c : Char) : Bool := (digitVal c).isSome

/-- Embedding of `strtol(val, &end, 0)` as used by `parse_cache_size`
(`src/src/main.c:157`): skip whitespace, optional sign, base detection
(`0x`/`0X` prefix followed by a hex digit selects base 16, a leading `0`
selects base 8, otherwise base 10), longest digit run, clamped to `long`
range.  Returns `none` when no conversion is performed (C: `end == val`),
otherwise the value and the unconsumed suffix (where `end` points). -/
def strtol0 (s : List Char) : Option (Int × List Char) :=
  let s1 := s.dropWhile isCSpace
  let signSplit : Bool × List Char :=
    match s1 with
    | '+' :: r => (false, r)
    | '-' :: r => (true, r)
    | r => (false, r)
  let neg := signSplit.1
  let s2 := signSplit.2
  let baseBody : Nat × List Char :=
    match s2 with
    | '0' :: c :: rest =>
      if (c = 'x' || c = 'X')
          && (match rest with | d :: _ => isHexDigitC d | [] => false) then
        (16, rest)
      else (8, '0' :: c :: rest)
    | '0' :: [] => (8, ['0'])
    | r => (10, r)
  let p := takeDigits baseBody.1 baseBody.2
  if p.1.isEmpty then none
  else
    let mag : Int := (digitsToNat baseBody.1 p.1 : Nat)
    some (clampLong (if neg then -mag else mag), p.2)

/-- Fatal configuration errors raised by `parse_cache_size` through
`log_critx`. -/
inductive CacheSizeErr where
  | invalidSize (val : String)
  | invalidSuffix (val : String)
  deriving DecidableEq, Repr

/-- Modulus of the 64-bit `size_t` arithmetic of `parse_cache_size`. -/
def UINT64_MOD : Nat := 2 ^ 64

/-- Conversion of the `long` returned by `strtol` to the `size_t` variable
`size` (two's-complement wraparound). -/
def toSizeT (n : Int) : Nat := (n % (UINT64_MOD : Int)).toNat

/-- Embedding of the suffix `switch` of `parse_cache_size`
(`src/src/main.c:161-169`): it inspects only the character `*end`
immediately following the parsed integer. -/
def cache_suffix (size : Nat) (v : String) : List Char → Except CacheSizeErr Nat
  | [] => Except.ok size
  | c :: _ =>
    if c = 'k' ∨ c = 'K' then Except.ok (size * 1024 % UINT64_MOD)
    else if c = 'm' ∨ c = 'M' then Except.ok (size * (1024 * 1024) % UINT64_MOD)
    else if c = 'g' ∨ c = 'G' then
      Except.ok (size * (1024 * 1024 * 1024) % UINT64_MOD)
    else Except.error (CacheSizeErr.invalidSuffix v)

/-- Embedding of `parse_cache_size` (`src/src/main.c:142-172`).  `env` is the
value of `DCP_CACHE_SIZE` (none when unset) and `given`/`arg` the
`--cache-size` flag; the flag overrides the environment; with neither, the
default is 32768. -/
def parse_cache_size (env : Option String) (given : Bool) (arg : String) :
    Except CacheSizeErr Nat :=
  let val : Option String := if given then some arg else env
  match val with
  | none => Except.ok 32768
  | some v =>
    match strtol0 v.toList with
    | none => Except.error (CacheSizeErr.invalidSize v)
    | some (n, rest) => cache_suffix (toSizeT n) v rest

/-- Result of a `stat` call, distinguished as `prepare`
(`src/src/main.c:408-464`) distinguishes them: success on a directory,
success on a non-directory, failure with `ENOENT`, failure with any other
errno. -/
inductive StatRes where
  | dir
  | nondir
  | enoent
  | statErr
  deriving DecidableEq, Repr

/-- Embedding of `prepare` (`src/src/main.c:408-464`).  `fs` is the
filesystem `stat`, `bn` the C library `basename` (external to the sources,
kept abstract).  Returns `.error ()` when prepare reports failure (-1),
otherwise the `newdest` out-parameter: `some` of the redefined destination,
or `none` meaning the original destination stays in effect. -/
def prepare (fs : String → StatRes) (bn : String → String)
    (files : List String) (dest : String) : Except Unit (Option String) :=
  if files.length = 1 then
    let src := files.headD ""
    match fs src with
    | StatRes.enoent => Except.error ()
    | StatRes.statErr => Except.error ()
    | StatRes.nondir => Except.ok none
    | StatRes.dir =>
      match fs dest with
      | StatRes.dir =>
        Except.ok (some (dest
          ++ (if dest.data.getLast? = some '/' then "" else "/") ++ bn src))
      | StatRes.nondir => Except.ok none
      | StatRes.enoent => Except.ok none
      | StatRes.statErr => Except.error ()
  else Except.ok none

/-- Embedding of the key-type assignment of `build_index`
(`src/src/main.c:386-388`): `type` is assigned from the first non-zero
masked bit, checking md5 then sha1 then sha256 then sha512; `none` when the
mask contains none of the four. -/
def index_key_type (digests : Nat) : Option Nat :=
  if digests &&& DGST_MD5 ≠ 0 then some (digests &&& DGST_MD5)
  else if digests &&& DGST_SHA1 ≠ 0 then some (digests &&& DGST_SHA1)
  else if digests &&& DGST_SHA256 ≠ 0 then some (digests &&& DGST_SHA256)
  else if digests &&& DGST_SHA512 ≠ 0 then some (digests &&& DGST_SHA512)
  else none

/-- Embedding of `build_index` (`src/src/main.c:379-399`): an empty digest
mask is fatal; each input manifest is ingested in supplied order through
`io_index_read` (external to the sources, abstracted by `readOk`), and the
first failure is fatal, naming the offending path — no input is ever
skipped.  On success the index exists, keyed by the chosen type. -/
def build_index (digests : Nat) (paths : List String)
    (readOk : String → Bool) : Except String Nat :=
  match index_key_type digests with
  | none => Except.error "corrput parsing of digest types from inputs"
  | some t =>
    match paths.find? (fun p => !readOk p) with
    | some p => Except.error ("error building index with entries from " ++ p)
    | none => Except.ok t

/-- The fields of `struct mainopts` that `dcp_main` consults for the digest,
index and destination flow. -/
structure MainOpts where
  files : List String
  dest : String
  digests : Nat
  inputs : List String
  deriving Repr

/-- Externally visible steps of `dcp_main`, in program order: building the
content index (with its key type), writing the metadata header (with the
digest mask passed to `print_metadata`), and invoking the copy engine `dcp`
(with the digest mask stored into `dcpopts.digests` and the effective
destination). -/
inductive DcpAction where
  | builtIndex (key : Nat)
  | wroteHeader (digests : Nat)
  | invokedDcp (engineDigests : Nat) (dest : String)
  deriving DecidableEq, Repr

/-- Embedding of `dcp_main` (`src/src/main.c:318-376`).  `peek` abstracts
`io_index_digest_peek` over the input manifests (`.ok` with the declared
digest mask, `.error` when no digest types are determinable); `readOk`
abstracts `io_index_read`.  When inputs are supplied the peeked mask replaces
the local `digests` used for the index and the header, but the copy engine
receives `opts.digests` verbatim (`dcpopts.digests = opts->digests`,
`src/src/main.c:349`).  The returned trace lists the performed actions; all
fatal errors leave the trace produced so far. -/
def dcp_main (opts : MainOpts) (peek : Except Unit Nat)
    (readOk : String → Bool) (fs : String → StatRes) (bn : String → String) :
    List DcpAction × Except String Unit :=
  let step2 : Nat → List DcpAction → List DcpAction × Except String Unit :=
    fun digests acts0 =>
      let acts1 := acts0 ++ [DcpAction.wroteHeader digests]
      match prepare fs bn opts.files opts.dest with
      | Except.error _ => (acts1, Except.error "cannot prepare destination")
      | Except.ok newdest =>
        (acts1
          ++ [DcpAction.invokedDcp opts.digests (newdest.getD opts.dest)],
          Except.ok ())
  if opts.inputs.isEmpty then
    step2 opts.digests []
  else
    match peek with
    | Except.error _ =>
      ([], Except.error "cannot determine digest types from input file(s)")
    | Except.ok d =>
      match build_index d opts.inputs readOk with
      | Except.error e => ([], Except.error e)
      | Except.ok key => step2 d [DcpAction.builtIndex key]

/-- Fatal operand errors of `mainopts_parse` (`src/src/main.c:289-294`). -/
inductive MainoptsErr where
  | missingFileOperand
  | missingDestOperand (first : String)
  deriving DecidableEq, Repr

/-- Embedding of the operand handling of `mainopts_parse`
(`src/src/main.c:283-306`).  `positionals` is gengetopt's `inputs` array of
positional operands; `filecount = inputs_num - 1` computed as a signed
quantity; fewer than two operands is fatal, and the fatal exit happens before
`parse_outputstream` runs, so the Bool component (whether the output file
creation step was reached) is false on those paths.  On success the last
positional operand is the destination and all preceding ones the sources. -/
def mainopts_parse (positionals : List String) :
    Bool × Except MainoptsErr (List String × String) :=
  let filecount : Int := (positionals.length : Int) - 1
  if filecount < 0 then (false, Except.error MainoptsErr.missingFileOperand)
  else if filecount = 0 then
    (false,
      Except.error (MainoptsErr.missingDestOperand (positionals.headD "")))
  else
    (true, Except.ok (positionals.take filecount.toNat,
      positionals.getD filecount.toNat ""))

/-- Serialization channel of one metadata header field, as `print_metadata`
selects them: `scalar` for `io_metadata_put` (plain value, `none` for the
bare generator-tag line), `strs` for `io_metadata_put_strs` (values joined by
the given separator), `json` for `io_metadata_put_json` (a JSON-encoded array
of strings).  `io.h` is external to the sources; the constructors record
which writer `main.c` invokes and with which arguments. -/
inductive MetaVal where
  | scalar (v : Option String)
  | strs (sep : String) (vs : List String)
  | json (vs : List String)
  deriving DecidableEq, Repr

/-- Discriminator: was the field emitted through the JSON-array writer? -/
def MetaVal.isJson : MetaVal → Bool
  | MetaVal.json _ => true
  | _ => false

/-- Embedding of the digest-name array construction of `print_metadata`
(`src/src/main.c:486-490`); the `HAS_*` macros of the external `digest.h`
are modelled as bit tests of the mask. -/
def digest_names (digests : Nat) : List String :=
  (if digests &&& DGST_MD5 ≠ 0 then ["md5"] else [])
    ++ (if digests &&& DGST_SHA1 ≠ 0 then ["sha1"] else [])
    ++ (if digests &&& DGST_SHA256 ≠ 0 then ["sha256"] else [])
    ++ (if digests &&& DGST_SHA512 ≠ 0 then ["sha512"] else [])

/-- Embedding of `print_metadata` (`src/src/main.c:467-524`) as the ordered
list of emitted header fields with the exact keys of the source.  `cwd` is
`none` when `getcwd` fails, `username`/`groupname` are `none` when no
owner/group name was supplied. -/
def print_metadata (version timestamp : String) (argv : List String)
    (digests : Nat) (host : String) (cwd : Option String)
    (files : List String) (dest outfilename : String)
    (username groupname : Option String) : List (String × MetaVal) :=
  [("File Generated by dcp DO NOT EDIT", MetaVal.scalar none),
   ("version    ", MetaVal.scalar (some version)),
   ("timestamp  ", MetaVal.scalar (some timestamp)),
   ("command    ", MetaVal.strs " " argv),
   ("digests    ", MetaVal.strs ", " (digest_names digests)),
   ("host       ", MetaVal.scalar (some host))]
  ++ (match cwd with
      | some c => [("cwd        ", MetaVal.json [c])]
      | none => [])
  ++ [("sources    ", MetaVal.json files),
      ("destination", MetaVal.json [dest]),
      ("output     ", MetaVal.json [outfilename])]
  ++ (match username with
      | some u => [("data_owner ", MetaVal.scalar (some u))]
      | none => [])
  ++ (match groupname with
      | some g => [("data_group ", MetaVal.scalar (some g))]
      | none => [])

end DCP

namespace DCP

/-- C4 counterexample: the value `1kb` carries the trailing suffix `kb`,
which is not one of the single suffixes k/K, m/M, g/G, yet
`parse_cache_size` accepts it as 1024 instead of failing: the `switch` at
`src/src/main.c:161` inspects only the first character after the integer and
silently ignores the rest. -/
theorem c4_counterexample_suffix_tail_ignored :
    parse_cache_size none true "1kb" = Except.ok 1024 := rfl

/-- C4 (amended): the cache size defaults to 32768 when neither the flag nor
the environment variable supplies a value; a supplied value is parsed by
`strtol` with base 0; a value with no parseable integer prefix is a fatal
configuration error; the character immediately following the integer is then
examined: end-of-string keeps the value, k/K, m/M, g/G multiply it by 1024,
1024^2, 1024^3 respectively, and any other character is a fatal configuration
error — characters after a valid multiplier character are ignored (the
trailing `tail` below is arbitrary). -/
theorem c4_cache_size_amended (env : Option String) (given : Bool)
    (arg : String) :
    ((if given then some arg else env) = none →
        parse_cache_size env given arg = Except.ok 32768)
    ∧ (∀ v, (if given then some arg else env) = some v →
        (strtol0 v.toList = none →
          parse_cache_size env given arg
            = Except.error (CacheSizeErr.invalidSize v))
        ∧ (∀ n, strtol0 v.toList = some (n, []) →
            parse_cache_size env given arg = Except.ok (toSizeT n))
        ∧ (∀ n c tail, strtol0 v.toList = some (n, c :: tail) →
            ((c = 'k' ∨ c = 'K') →
              parse_cache_size env given arg
                = Except.ok (toSizeT n * 1024 % UINT64_MOD))
            ∧ ((c = 'm' ∨ c = 'M') →
              parse_cache_size env given arg
                = Except.ok (toSizeT n * (1024 * 1024) % UINT64_MOD))
            ∧ ((c = 'g' ∨ c = 'G') →
              parse_cache_size env given arg
                = Except.ok (toSizeT n * (1024 * 1024 * 1024) % UINT64_MOD))
            ∧ (¬(c = 'k' ∨ c = 'K' ∨ c = 'm' ∨ c = 'M' ∨ c = 'g' ∨ c = 'G') →
              parse_cache_size env given arg
                = Except.error (CacheSizeErr.invalidSuffix v)))) := by
  refine ⟨?_, ?_⟩
  · intro h
    simp only [parse_cache_size, h]
  · intro v hv
    refine ⟨?_, ?_, ?_⟩
    · intro hs
      simp only [parse_cache_size, hv, hs]
    · intro n hs
      simp only [parse_cache_size, hv, hs, cache_suffix]
    · intro n c tail hs
      simp only [parse_cache_size, hv, hs, cache_suffix]
      refine ⟨?_, ?_, ?_, ?_⟩
      · intro hc
        rw [if_pos hc]
      · intro hc
        rw [if_neg, if_pos hc]
        rcases hc with hc | hc <;> subst hc <;> decide
      · intro hc
        rw [if_neg, if_neg, if_pos hc]
        · rcases hc with hc | hc <;> subst hc <;> decide
        · rcases hc with hc | hc <;> subst hc <;> decide
      · intro hc
        rw [if_neg, if_neg, if_neg]
        · exact fun h => hc (Or.inr (Or.inr (Or.inr (Or.inr h))))
        · exact fun h => hc (Or.inr (Or.inr (h.imp id Or.inl)))
        · exact fun h => hc (h.imp id Or.inl)

/-- Witness for `c4_cache_size_amended`: the default, a plain value, each
multiplier class, an unparseable value and an invalid suffix, at concrete
inputs. -/
theorem c4_cache_size_amended_witness :
    parse_cache_size none false "" = Except.ok 32768
    ∧ parse_cache_size none true "12" = Except.ok 12
    ∧ parse_cache_size none true "64k" = Except.ok 65536
    ∧ parse_cache_size none true "2M" = Except.ok 2097152
    ∧ parse_cache_size none true "1G" = Except.ok 1073741824
    ∧ parse_cache_size none true "zzz"
        = Except.error (CacheSizeErr.invalidSize "zzz")
    ∧ parse_cache_size none true "10q"
        = Except.error (CacheSizeErr.invalidSuffix "10q") := by
  refine ⟨(c4_cache_size_amended none false "").1 rfl, ?_, ?_, ?_, ?_, ?_, ?_⟩
  · exact ((c4_cache_size_amended none true "12").2 "12" rfl).2.1 12 rfl
  · have h := (((c4_cache_size_amended none true "64k").2 "64k" rfl).2.2 64 'k'
      [] rfl).1 (Or.inl rfl)
    simpa using h
  · have h := (((c4_cache_size_amended none true "2M").2 "2M" rfl).2.2 2 'M'
      [] rfl).2.1 (Or.inr rfl)
    simpa using h
  · have h := (((c4_cache_size_amended none true "1G").2 "1G" rfl).2.2 1 'G'
      [] rfl).2.2.1 (Or.inr rfl)
    simpa using h
  · exact ((c4_cache_size_amended none true "zzz").2 "zzz" rfl).1 rfl
  · exact (((c4_cache_size_amended none true "10q").2 "10q" rfl).2.2 10 'q'
      [] rfl).2.2.2 (by decide)

/-- C7: for each of owner name, group name and cache size, a given
command-line flag makes the environment variable irrelevant, and with the
flag absent the environment value is used exactly as a flag value would
be. -/
theorem c7_flag_overrides_env (envU envG envC : Option String) (u g c : String)
    (pw gr : String → Option Nat) (euid egid : Nat) :
    (parse_owner envU true u pw euid = parse_owner none true u pw euid)
    ∧ (∀ s, parse_owner (some s) false u pw euid
        = parse_owner none true s pw euid)
    ∧ (parse_group envG true g gr egid = parse_group none true g gr egid)
    ∧ (∀ s, parse_group (some s) false g gr egid
        = parse_group none true s gr egid)
    ∧ (parse_cache_size envC true c = parse_cache_size none true c)
    ∧ (∀ s, parse_cache_size (some s) false c
        = parse_cache_size none true s) :=
  ⟨rfl, fun _ => rfl, rfl, fun _ => rfl, rfl, fun _ => rfl⟩

/-- C5: digest selection from flags.  If the "all" flag is set the mask is all
four algorithms; otherwise the mask is the union of the individually set
algorithm flags; if no algorithm flag at all is given the mask is exactly
MD5. -/
theorem c5_parse_digests (all md5 sha1 sha256 sha512 : Bool) :
    (all = true → parse_digests all md5 sha1 sha256 sha512 = DGST_ALL)
    ∧ (all = false → (md5 || sha1 || sha256 || sha512) = true →
        parse_digests all md5 sha1 sha256 sha512 =
          (if md5 then DGST_MD5 else 0) ||| (if sha1 then DGST_SHA1 else 0)
            ||| (if sha256 then DGST_SHA256 else 0)
            ||| (if sha512 then DGST_SHA512 else 0))
    ∧ (all = false → md5 = false → sha1 = false → sha256 = false →
        sha512 = false →
        parse_digests all md5 sha1 sha256 sha512 = DGST_MD5) := by
  revert all md5 sha1 sha256 sha512
  decide

/-- Witness for `c5_parse_digests` at concrete flag values. -/
theorem c5_parse_digests_witness :
    parse_digests true false false false false = DGST_ALL
    ∧ parse_digests false false true false true = (DGST_SHA1 ||| DGST_SHA512)
    ∧ parse_digests false false false false false = DGST_MD5 := by
  refine ⟨(c5_parse_digests true false false false false).1 rfl, ?_, ?_⟩
  · have h := (c5_parse_digests false false true false true).2.1 rfl rfl
    simpa using h
  · exact (c5_parse_digests false false false false false).2.2 rfl rfl rfl rfl rfl

/-- C6: owner and group resolution.  When no name is supplied by flag or
environment the applied uid/gid is the process's effective uid/gid with no
warning; when a supplied name fails the system directory lookup a warning is
emitted and the result falls back to the effective uid/gid instead of failing
the run; a successful lookup yields the looked-up id with no warning. -/
theorem c6_owner_group_fallback (env : Option String) (given : Bool)
    (arg : String) (lookup : String → Option Nat) (eid : Nat) :
    ((if given then some arg else env) = none →
        parse_owner env given arg lookup eid = ⟨eid, false, none⟩
        ∧ parse_group env given arg lookup eid = ⟨eid, false, none⟩)
    ∧ (∀ u, (if given then some arg else env) = some u → lookup u = none →
        parse_owner env given arg lookup eid = ⟨eid, true, some u⟩
        ∧ parse_group env given arg lookup eid = ⟨eid, true, some u⟩)
    ∧ (∀ u i, (if given then some arg else env) = some u → lookup u = some i →
        parse_owner env given arg lookup eid = ⟨i, false, some u⟩
        ∧ parse_group env given arg lookup eid = ⟨i, false, some u⟩) := by
  refine ⟨?_, ?_, ?_⟩
  · intro h
    simp only [parse_owner, parse_group, h]
    exact ⟨trivial, trivial⟩
  · intro u hu hl
    simp only [parse_owner, parse_group, hu, hl]
    exact ⟨trivial, trivial⟩
  · intro u i hu hl
    simp only [parse_owner, parse_group, hu, hl]
    exact ⟨trivial, trivial⟩

/-- Witness for `c6_owner_group_fallback`: no name supplied, a name whose
lookup fails, and a name whose lookup succeeds, at concrete inputs. -/
theorem c6_owner_group_fallback_witness :
    parse_owner none false "" (fun n => if n = "alice" then some 42 else none)
      1000 = ⟨1000, false, none⟩
    ∧ parse_owner (some "bob") false ""
        (fun n => if n = "alice" then some 42 else none) 1000
        = ⟨1000, true, some "bob"⟩
    ∧ parse_owner (some "alice") false ""
        (fun n => if n = "alice" then some 42 else none) 1000
        = ⟨42, false, some "alice"⟩ := by
  refine ⟨?_, ?_, ?_⟩
  · exact ((c6_owner_group_fallback none false ""
      (fun n => if n = "alice" then some 42 else none) 1000).1 rfl).1
  · exact (((c6_owner_group_fallback (some "bob") false ""
      (fun n => if n = "alice" then some 42 else none) 1000).2.1 "bob" rfl)
      (by decide)).1
  · exact (((c6_owner_group_fallback (some "alice") false ""
      (fun n => if n = "alice" then some 42 else none) 1000).2.2 "alice" 42 rfl)
      (by decide)).1

end DCP

namespace DCP

/-- Helper: if every element satisfies `p`, the search for a counterexample
finds nothing. -/
lemma find_not_eq_none {α : Type} (l : List α) (p : α → Bool)
    (h : ∀ x ∈ l, p x = true) : l.find? (fun x => !p x) = none := by
  rw [List.find?_eq_none]
  intro x hx
  simp [h x hx]

/-- Helper: a mask containing none of the four algorithm bits has every
single-bit intersection empty. -/
lemma and_bits_of_and_fifteen (d : Nat) (h : d &&& 15 = 0) :
    d &&& 1 = 0 ∧ d &&& 2 = 0 ∧ d &&& 4 = 0 ∧ d &&& 8 = 0 := by
  have hb : ∀ i, i < 4 → d.testBit i = false := by
    intro i hi
    have hc := congrArg (fun n => n.testBit i) h
    simp only [Nat.testBit_and, Nat.zero_testBit] at hc
    have h15 : Nat.testBit 15 i = true := by interval_cases i <;> decide
    simpa [h15] using hc
  refine ⟨?_, ?_, ?_, ?_⟩
  · rw [show (1 : Nat) = 2 ^ 0 by norm_num, Nat.and_two_pow,
      hb 0 (by norm_num)]
    simp
  · rw [show (2 : Nat) = 2 ^ 1 by norm_num, Nat.and_two_pow,
      hb 1 (by norm_num)]
    simp
  · rw [show (4 : Nat) = 2 ^ 2 by norm_num, Nat.and_two_pow,
      hb 2 (by norm_num)]
    simp
  · rw [show (8 : Nat) = 2 ^ 3 by norm_num, Nat.and_two_pow,
      hb 3 (by norm_num)]
    simp

/-- Helper: the key-type assignment yields nothing exactly on a mask with no
algorithm bit set. -/
lemma index_key_type_eq_none (d : Nat) (h : d &&& DGST_ALL = 0) :
    index_key_type d = none := by
  obtain ⟨h1, h2, h4, h8⟩ := and_bits_of_and_fifteen d h
  simp [index_key_type, DGST_MD5, DGST_SHA1, DGST_SHA256, DGST_SHA512,
    h1, h2, h4, h8]

/-- C1 (evaluation of the code at the failing input): a run invoked with the
command-line default mask (MD5, `opts.digests = 1`) and one prior manifest
whose peeked header declares exactly SHA256 (`peek = ok 4`) builds the index
keyed on SHA256 and writes a header declaring SHA256, but hands the copy
engine `dcpopts.digests = opts->digests`, the unreplaced command-line MD5
mask (`src/src/main.c:349`) — contradicting both the spec and the code's own
comment at `src/src/main.c:332` that with inputs given their digests are
used "instead of relying on the command line args". -/
theorem c1_engine_gets_cmdline_digests :
    dcp_main ⟨["src"], "dest", DGST_MD5, ["prior.out"]⟩ (Except.ok DGST_SHA256)
      (fun _ => true)
      (fun s => if s = "src" then StatRes.nondir else StatRes.enoent)
      (fun s => s)
    = ([DcpAction.builtIndex DGST_SHA256, DcpAction.wroteHeader DGST_SHA256,
        DcpAction.invokedDcp DGST_MD5 "dest"], Except.ok ()) := rfl

/-- C2: for every non-empty digest mask over the four algorithm bits, the
index key chosen by `build_index` is the lowest-ordinal algorithm present
under MD5 < SHA1 < SHA256 < SHA512, and an empty mask is a fatal pre-work
error. -/
theorem c2_index_key_lowest (digests : Nat) (paths : List String)
    (readOk : String → Bool) (hlt : digests < 16) :
    (digests = 0 →
      build_index digests paths readOk
        = Except.error "corrput parsing of digest types from inputs")
    ∧ (digests ≠ 0 → (∀ p ∈ paths, readOk p = true) →
      ∃ t, build_index digests paths readOk = Except.ok t
        ∧ (t = DGST_MD5 ∨ t = DGST_SHA1 ∨ t = DGST_SHA256 ∨ t = DGST_SHA512)
        ∧ digests &&& t ≠ 0
        ∧ ∀ a, (a = DGST_MD5 ∨ a = DGST_SHA1 ∨ a = DGST_SHA256
            ∨ a = DGST_SHA512) → digests &&& a ≠ 0 → t ≤ a) := by
  constructor
  · intro h
    subst h
    rfl
  · intro hne hall
    have hfind : paths.find? (fun p => !readOk p) = none :=
      find_not_eq_none paths readOk hall
    have hbuild : ∀ t, index_key_type digests = some t →
        build_index digests paths readOk = Except.ok t := by
      intro t ht
      simp [build_index, ht, hfind]
    interval_cases digests
    · exact absurd rfl hne
    all_goals
      refine ⟨_, hbuild _ rfl, by decide, by decide, ?_⟩
    all_goals
      intro a ha
      rcases ha with rfl | rfl | rfl | rfl <;> decide

/-- Witness for `c2_index_key_lowest`: the mask {SHA256, SHA512} selects
SHA256 as index key over a concrete, successfully ingested input list. -/
theorem c2_index_key_lowest_witness :
    build_index 12 ["m"] (fun _ => true) = Except.ok DGST_SHA256 := by
  obtain ⟨t, ht, hmem, hand, hmin⟩ :=
    (c2_index_key_lowest 12 ["m"] (fun _ => true) (by norm_num)).2
      (by norm_num) (by intro p hp; rfl)
  rcases hmem with rfl | rfl | rfl | rfl
  · exact absurd (by decide : (12 : Nat) &&& DGST_MD5 = 0) hand
  · exact absurd (by decide : (12 : Nat) &&& DGST_SHA1 = 0) hand
  · exact ht
  · have hle := hmin DGST_SHA256 (Or.inr (Or.inr (Or.inl rfl))) (by decide)
    exact absurd hle (by decide)

/-- C3: with exactly one source operand that stats as a directory and a
destination that exists and stats as a directory, `prepare` redefines the
effective destination exactly once, to `destination/basename(source)`,
inserting the `/` only when the destination does not already end in one
(`some` in the result is the single redefinition `dcp_main` then installs);
with multiple operands, a non-directory source, an absent destination, or a
destination that is not a directory, the destination is left unchanged
(result `none`) and a missing destination is not an error. -/
theorem c3_prepare_nesting (fs : String → StatRes) (bn : String → String)
    (files : List String) (dest : String) :
    (∀ src, files = [src] → fs src = StatRes.dir → fs dest = StatRes.dir →
      prepare fs bn files dest
        = Except.ok (some (dest
            ++ (if dest.data.getLast? = some '/' then "" else "/") ++ bn src)))
    ∧ (files.length ≠ 1 → prepare fs bn files dest = Except.ok none)
    ∧ (∀ src, files = [src] → fs src = StatRes.nondir →
        prepare fs bn files dest = Except.ok none)
    ∧ (∀ src, files = [src] → fs src = StatRes.dir →
        fs dest = StatRes.enoent → prepare fs bn files dest = Except.ok none)
    ∧ (∀ src, files = [src] → fs src = StatRes.dir →
        fs dest = StatRes.nondir →
        prepare fs bn files dest = Except.ok none) := by
  refine ⟨?_, ?_, ?_, ?_, ?_⟩
  · intro src hf hs hd
    subst hf
    simp [prepare, hs, hd]
  · intro h
    unfold prepare
    rw [if_neg h]
  · intro src hf hs
    subst hf
    simp [prepare, hs]
  · intro src hf hs hd
    subst hf
    simp [prepare, hs, hd]
  · intro src hf hs hd
    subst hf
    simp [prepare, hs, hd]

/-- Witness for `c3_prepare_nesting`: concrete filesystems exercising the
redefinition (with and without a trailing slash on the destination), the
multi-operand case, the non-directory source and the absent destination. -/
theorem c3_prepare_nesting_witness :
    prepare (fun s => if s = "A" ∨ s = "B" then StatRes.dir
        else if s = "f" then StatRes.nondir else StatRes.enoent)
      (fun _ => "A") ["A"] "B" = Except.ok (some "B/A")
    ∧ prepare (fun s => if s = "A" ∨ s = "B/" then StatRes.dir
        else StatRes.enoent) (fun _ => "A") ["A"] "B/"
        = Except.ok (some "B/A")
    ∧ prepare (fun s => if s = "A" ∨ s = "B" then StatRes.dir
        else if s = "f" then StatRes.nondir else StatRes.enoent)
      (fun _ => "A") ["A", "f"] "B" = Except.ok none
    ∧ prepare (fun s => if s = "A" ∨ s = "B" then StatRes.dir
        else if s = "f" then StatRes.nondir else StatRes.enoent)
      (fun _ => "f") ["f"] "B" = Except.ok none
    ∧ prepare (fun s => if s = "A" then StatRes.dir else StatRes.enoent)
      (fun _ => "A") ["A"] "B" = Except.ok none := by
  refine ⟨?_, ?_, ?_, ?_, ?_⟩
  · have h := (c3_prepare_nesting
      (fun s => if s = "A" ∨ s = "B" then StatRes.dir
        else if s = "f" then StatRes.nondir else StatRes.enoent)
      (fun _ => "A") ["A"] "B").1 "A" rfl (by simp) (by simp)
    simpa using h
  · have h := (c3_prepare_nesting
      (fun s => if s = "A" ∨ s = "B/" then StatRes.dir else StatRes.enoent)
      (fun _ => "A") ["A"] "B/").1 "A" rfl (by simp) (by simp)
    simpa using h
  · exact (c3_prepare_nesting _ (fun _ => "A") ["A", "f"] "B").2.1
      (by norm_num)
  · exact (c3_prepare_nesting _ (fun _ => "f") ["f"] "B").2.2.1 "f" rfl
      (by simp)
  · exact (c3_prepare_nesting _ (fun _ => "A") ["A"] "B").2.2.2.1 "A" rfl
      (by simp) (by simp)

end DCP

namespace DCP

/-- C8: with prior-manifest inputs supplied, a failing digest peek, a peeked
mask with no determinable digest type, or any input failing index ingestion
terminates the run fatally with an error before any action is performed (the
trace is empty: no header is written and the copy engine `dcp` is never
invoked, so no source entry is processed); conversely a run that reaches the
copy phase ingested every supplied input — ingestion errors are never
recovered from by skipping the offending manifest. -/
theorem c8_fatal_ingestion (opts : MainOpts) (peek : Except Unit Nat)
    (readOk : String → Bool) (fs : String → StatRes) (bn : String → String)
    (hin : opts.inputs ≠ []) :
    (peek = Except.error () →
      dcp_main opts peek readOk fs bn
        = ([],
          Except.error "cannot determine digest types from input file(s)"))
    ∧ (∀ d, peek = Except.ok d → d &&& DGST_ALL = 0 →
      dcp_main opts peek readOk fs bn
        = ([], Except.error "corrput parsing of digest types from inputs"))
    ∧ (∀ d p, peek = Except.ok d → p ∈ opts.inputs → readOk p = false →
      ∃ e, dcp_main opts peek readOk fs bn = ([], Except.error e))
    ∧ ((dcp_main opts peek readOk fs bn).2 = Except.ok () →
      ∀ p ∈ opts.inputs, readOk p = true) := by
  obtain ⟨files, dest, digests, inputs⟩ := opts
  have hne : inputs.isEmpty = false := by
    cases inputs with
    | nil => exact absurd rfl hin
    | cons a l => rfl
  refine ⟨?_, ?_, ?_, ?_⟩
  · intro h
    subst h
    simp [dcp_main, hne]
  · intro d hp hd
    subst hp
    have hk := index_key_type_eq_none d hd
    simp [dcp_main, hne, build_index, hk]
  · intro d p hp hmem hro
    subst hp
    have hfind : inputs.find? (fun q => !readOk q) ≠ none := by
      intro hnone
      have h2 := List.find?_eq_none.mp hnone p hmem
      simp [hro] at h2
    obtain ⟨q, hq⟩ := Option.ne_none_iff_exists'.mp hfind
    cases hkt : index_key_type d with
    | none =>
      exact ⟨"corrput parsing of digest types from inputs",
        by simp [dcp_main, hne, build_index, hkt]⟩
    | some t =>
      exact ⟨"error building index with entries from " ++ q,
        by simp [dcp_main, hne, build_index, hkt, hq]⟩
  · intro hok p hmem
    cases hpk : peek with
    | error u =>
      cases u
      subst hpk
      simp [dcp_main, hne] at hok
    | ok d =>
      subst hpk
      by_contra hro
      have hro2 : readOk p = false := by
        cases h2 : readOk p with
        | true => exact absurd h2 hro
        | false => rfl
      have hfind : inputs.find? (fun q => !readOk q) ≠ none := by
        intro hnone
        have h2 := List.find?_eq_none.mp hnone p hmem
        simp [hro2] at h2
      obtain ⟨q, hq⟩ := Option.ne_none_iff_exists'.mp hfind
      cases hkt : index_key_type d with
      | none => simp [dcp_main, hne, build_index, hkt] at hok
      | some t => simp [dcp_main, hne, build_index, hkt, hq] at hok

/-- Witness for `c8_fatal_ingestion`: a failing peek, an empty peeked mask
and a second-of-two input failing ingestion, each at concrete inputs. -/
theorem c8_fatal_ingestion_witness :
    dcp_main ⟨["s"], "d", 1, ["in1", "in2"]⟩ (Except.error ())
      (fun _ => true) (fun _ => StatRes.nondir) (fun n => n)
      = ([], Except.error "cannot determine digest types from input file(s)")
    ∧ dcp_main ⟨["s"], "d", 1, ["in1", "in2"]⟩ (Except.ok 0)
      (fun _ => true) (fun _ => StatRes.nondir) (fun n => n)
      = ([], Except.error "corrput parsing of digest types from inputs")
    ∧ ∃ e, dcp_main ⟨["s"], "d", 1, ["in1", "in2"]⟩ (Except.ok 1)
      (fun p => p = "in1") (fun _ => StatRes.nondir) (fun n => n)
      = ([], Except.error e) := by
  refine ⟨?_, ?_, ?_⟩
  · exact (c8_fatal_ingestion ⟨["s"], "d", 1, ["in1", "in2"]⟩
      (Except.error ()) (fun _ => true) (fun _ => StatRes.nondir)
      (fun n => n) (by simp)).1 rfl
  · exact (c8_fatal_ingestion ⟨["s"], "d", 1, ["in1", "in2"]⟩
      (Except.ok 0) (fun _ => true) (fun _ => StatRes.nondir)
      (fun n => n) (by simp)).2.1 0 rfl rfl
  · exact (c8_fatal_ingestion ⟨["s"], "d", 1, ["in1", "in2"]⟩
      (Except.ok 1) (fun p => p = "in1") (fun _ => StatRes.nondir)
      (fun n => n) (by simp)).2.2.1 1 "in2" rfl (by simp) (by decide)

/-- C10: fewer than two positional operands is a fatal error raised before
the output-file creation step is reached (the Bool component stays false):
zero operands yield the missing-file-operand error, one operand yields the
missing-destination error naming that sole operand; with two or more
operands the last operand is the destination and all preceding ones the
sources. -/
theorem c10_operands (positionals : List String) :
    (positionals = [] →
      mainopts_parse positionals
        = (false, Except.error MainoptsErr.missingFileOperand))
    ∧ (∀ x, positionals = [x] →
      mainopts_parse positionals
        = (false, Except.error (MainoptsErr.missingDestOperand x)))
    ∧ (∀ srcs d, srcs ≠ [] → positionals = srcs ++ [d] →
      mainopts_parse positionals = (true, Except.ok (srcs, d))) := by
  refine ⟨?_, ?_, ?_⟩
  · intro h
    subst h
    rfl
  · intro x h
    subst h
    rfl
  · intro srcs d hne h
    subst h
    have hpos : 0 < srcs.length := List.length_pos.mpr hne
    simp only [mainopts_parse]
    have hlen : (((srcs ++ [d]).length : Nat) : Int) - 1
        = (srcs.length : Int) := by
      simp
    rw [hlen, if_neg (by omega), if_neg (by exact_mod_cast hpos.ne.symm),
      Int.toNat_natCast, List.take_left]
    simp [List.getD_append_right]

/-- Witness for `c10_operands`: zero, one, and three operands, concretely. -/
theorem c10_operands_witness :
    mainopts_parse []
      = (false, Except.error MainoptsErr.missingFileOperand)
    ∧ mainopts_parse ["a"]
      = (false, Except.error (MainoptsErr.missingDestOperand "a"))
    ∧ mainopts_parse ["a", "b", "c"]
      = (true, Except.ok (["a", "b"], "c")) := by
  refine ⟨(c10_operands []).1 rfl, (c10_operands ["a"]).2.1 "a" rfl, ?_⟩
  exact (c10_operands ["a", "b", "c"]).2.2 ["a", "b"] "c" (by simp) rfl

/-- C9 counterexample: at a concrete invocation the `command` header field is
emitted through `io_metadata_put_strs` with separator `" "`
(`src/src/main.c:503`), not through the JSON-array writer
`io_metadata_put_json` used for cwd/sources/destination/output — so the
command line (and likewise the digest name list, written with separator
`", "`) is not serialized as a JSON-encoded array of strings as the claim
states. -/
theorem c9_counterexample_command_not_json :
    (print_metadata "1.0" "ts" ["dcp", "a", "b"] 1 "h" (some "/c") ["a"] "b"
        "dcp.out" none none).lookup "command    "
      = some (MetaVal.strs " " ["dcp", "a", "b"])
    ∧ (MetaVal.strs " " ["dcp", "a", "b"]).isJson = false := ⟨rfl, rfl⟩

/-- C9 (amended): the header block written once at run start consists of the
generator-tag line first, then `key: value` fields for version, timestamp,
command line, in-use digest algorithm names, host, current directory (when
obtainable), source list, destination and output path, with owner/group
names only when supplied; the cwd, source list, destination and output
fields are JSON-encoded arrays of strings, while the command line is written
joined with `" "` and the digest name list joined with `", "` through the
separator writer, not as JSON arrays. -/
theorem c9_metadata_fields (version timestamp : String) (argv : List String)
    (digests : Nat) (host : String) (cwd : Option String)
    (files : List String) (dest outfilename : String)
    (username groupname : Option String) :
    (print_metadata version timestamp argv digests host cwd files dest
        outfilename username groupname).head?
      = some ("File Generated by dcp DO NOT EDIT", MetaVal.scalar none)
    ∧ (print_metadata version timestamp argv digests host cwd files dest
        outfilename username groupname).lookup "version    "
      = some (MetaVal.scalar (some version))
    ∧ (print_metadata version timestamp argv digests host cwd files dest
        outfilename username groupname).lookup "timestamp  "
      = some (MetaVal.scalar (some timestamp))
    ∧ (print_metadata version timestamp argv digests host cwd files dest
        outfilename username groupname).lookup "command    "
      = some (MetaVal.strs " " argv)
    ∧ (print_metadata version timestamp argv digests host cwd files dest
        outfilename username groupname).lookup "digests    "
      = some (MetaVal.strs ", " (digest_names digests))
    ∧ (print_metadata version timestamp argv digests host cwd files dest
        outfilename username groupname).lookup "host       "
      = some (MetaVal.scalar (some host))
    ∧ (∀ c, cwd = some c →
      (print_metadata version timestamp argv digests host cwd files dest
          outfilename username groupname).lookup "cwd        "
        = some (MetaVal.json [c]))
    ∧ (print_metadata version timestamp argv digests host cwd files dest
        outfilename username groupname).lookup "sources    "
      = some (MetaVal.json files)
    ∧ (print_metadata version timestamp argv digests host cwd files dest
        outfilename username groupname).lookup "destination"
      = some (MetaVal.json [dest])
    ∧ (print_metadata version timestamp argv digests host cwd files dest
        outfilename username groupname).lookup "output     "
      = some (MetaVal.json [outfilename])
    ∧ (∀ u, username = some u →
      (print_metadata version timestamp argv digests host cwd files dest
          outfilename username groupname).lookup "data_owner "
        = some (MetaVal.scalar (some u)))
    ∧ (username = none →
      (print_metadata version timestamp argv digests host cwd files dest
          outfilename username groupname).lookup "data_owner " = none)
    ∧ (∀ g, groupname = some g →
      (print_metadata version timestamp argv digests host cwd files dest
          outfilename username groupname).lookup "data_group "
        = some (MetaVal.scalar (some g)))
    ∧ (groupname = none →
      (print_metadata version timestamp argv digests host cwd files dest
          outfilename username groupname).lookup "data_group " = none) := by
  rcases cwd with _ | c <;> rcases username with _ | u <;>
    rcases groupname with _ | g <;>
    refine ⟨?_, ?_, ?_, ?_, ?_, ?_, ?_, ?_, ?_, ?_, ?_, ?_, ?_, ?_⟩ <;>
    simp [print_metadata, List.lookup]

/-- Witness for `c9_metadata_fields`: the digest-name list for the mask
{MD5, SHA1}, a supplied owner name, and an absent group name, at concrete
inputs. -/
theorem c9_metadata_fields_witness :
    (print_metadata "1.0" "ts" ["dcp", "a", "b"] 3 "h" (some "/c") ["a"] "b"
        "dcp.out" (some "alice") none).lookup "digests    "
      = some (MetaVal.strs ", " ["md5", "sha1"])
    ∧ (print_metadata "1.0" "ts" ["dcp", "a", "b"] 3 "h" (some "/c") ["a"] "b"
        "dcp.out" (some "alice") none).lookup "data_owner "
      = some (MetaVal.scalar (some "alice"))
    ∧ (print_metadata "1.0" "ts" ["dcp", "a", "b"] 3 "h" (some "/c") ["a"] "b"
        "dcp.out" (some "alice") none).lookup "data_group " = none := by
  refine ⟨?_, ?_, ?_⟩
  · have h := (c9_metadata_fields "1.0" "ts" ["dcp", "a", "b"] 3 "h"
      (some "/c") ["a"] "b" "dcp.out" (some "alice") none).2.2.2.2.1
    have h2 : digest_names 3 = ["md5", "sha1"] := rfl
    rw [h2] at h
    exact h
  · exact (c9_metadata_fields "1.0" "ts" ["dcp", "a", "b"] 3 "h"
      (some "/c") ["a"] "b" "dcp.out" (some "alice")
      none).2.2.2.2.2.2.2.2.2.2.1 "alice" rfl
  · exact (c9_metadata_fields "1.0" "ts" ["dcp", "a", "b"] 3 "h"
      (some "/c") ["a"] "b" "dcp.out" (some "alice")
      none).2.2.2.2.2.2.2.2.2.2.2.2.2 rfl

end DCP
